import Mathlib

/-!
Shallow embedding of the T2A text-to-speech HTTP service.

The repository consists of three near-duplicate variants of the same
request pipeline:
  * `S8` models `src/s8.js` (persists the finished artifact into a durable
    directory and serves it back via `GET /audio/:filename`);
  * `V1` models the first file concatenated in `src/unnamed/part_000`
    (lines 1-258: streaming endpoint `POST /api/tts` and the JSON
    envelope endpoint `POST /api/tts/complete`);
  * `V2` models the second file concatenated in `src/unnamed/part_000`
    (lines 259-676: streaming endpoint `POST /api/tts` and the JSON
    envelope endpoint `POST /api/tts/json`).

External collaborators (the gTTS engine, ffmpeg transcoding, ffprobe)
are modelled by an `Oracle` that fixes the outcome of each external call:
whether it succeeds, the bytes it writes on success, and the metadata the
probe reports.  The filesystem is an association list from paths to byte
lists.  Request handlers are pure functions from the pre-state (counter
value, filesystems, request body, the random file id, the oracle) to a
`HandlerResult` recording the response, the post-state of the temporary
and durable directories after all cleanup for the request has run
(including the deferred grace-delay deletion), and bookkeeping facts
(whether synthesis was invoked, the language code passed to it, the
counter afterwards, the probed duration, the ffmpeg resampling profile
used by the conversion step, if any).
-/

/-- Model of the JavaScript values a request body field can hold, as far as
the claims need: absent (`undefined`), a string, or a number. -/
inductive JSVal where
  | undef
  | str (s : String)
  | num (n : Int)
  deriving DecidableEq

/-- Request body of the POST TTS endpoints: `{ text, lang, file }`.
`lang` and `file` are either absent or strings (the claims only exercise
those shapes). -/
structure Body where
  text : JSVal
  lang : Option String
  file : Option String

/-- Model of JavaScript `String.prototype.toLowerCase` (ASCII range, which
covers every language alias and format name in the source). -/
def jsToLower (s : String) : String :=
  String.mk (s.data.map Char.toLower)

/-- Model of the JavaScript test `!text || !text.trim()` on a string:
true exactly when the string is empty or consists only of whitespace. -/
def jsIsBlank (s : String) : Bool :=
  s.data.all fun c => c.isWhitespace

/-- JavaScript object lookup on a string-keyed literal, modelled as an
association-list lookup (first binding wins, as duplicate keys in an
object literal would shadow earlier ones; the source literals have
distinct keys). -/
def objGet (m : List (String × String)) (k : String) : Option String :=
  match m with
  | [] => none
  | e :: rest => if e.1 = k then some e.2 else objGet rest k

/-- Model of `Array.prototype.includes` on a string array. -/
def listIncludes (l : List String) (x : String) : Bool :=
  match l with
  | [] => false
  | a :: rest => if a = x then true else listIncludes rest x

/-- Model of `fileIndex++` on a JavaScript number holding a nonnegative
integer: exact increment while the value stays below `2 ^ 53` (the range
in which IEEE doubles represent integers exactly); at `2 ^ 53` the
increment rounds back to the same value. -/
def jsInc (n : Nat) : Nat :=
  if n < 2 ^ 53 then n + 1 else n

/-- A directory tree: association list from paths to file contents. -/
abbrev FS : Type := List (String × List Nat)

/-- Delete a path if present (`fs.unlinkSync` guarded by
`fs.existsSync`, so deleting a missing path is a silent no-op). -/
def fsRemove (fs : FS) (p : String) : FS :=
  match fs with
  | [] => []
  | e :: rest => if e.1 = p then fsRemove rest p else e :: fsRemove rest p

/-- Write `b` to path `p`, overwriting any previous content. -/
def fsWrite (fs : FS) (p : String) (b : List Nat) : FS :=
  (p, b) :: fsRemove fs p

/-- Read the content at path `p`, if the file exists. -/
def fsRead (fs : FS) (p : String) : Option (List Nat) :=
  match fs with
  | [] => none
  | e :: rest => if e.1 = p then some e.2 else fsRead rest p

/-- The resampling options a `convertToWav` helper passes to ffmpeg. -/
structure WavProfile where
  codec : String
  channels : Nat
  frequency : Nat
  deriving DecidableEq

/-- The HTTP responses the handlers can produce.  `jsonOk` stands for the
JSON success documents (its `meta` field holds the reported format for
the s8.js endpoint and the reported content type for the JSON-audio
endpoints; `audio` holds the embedded audio bytes, `[]` when the response
embeds none). -/
inductive Resp where
  | code400 (err : String)
  | code404 (err : String)
  | code500 (err : String)
  | streamOk (mime : String) (filename : String) (body : List Nat)
  | jsonOk (filename : String) (meta : String) (audio : List Nat)
  deriving DecidableEq

/-- True exactly on a 400 validation response. -/
def Resp.is400 : Resp → Bool
  | .code400 _ => true
  | _ => false

/-- True exactly on a 500 response. -/
def Resp.is500 : Resp → Bool
  | .code500 _ => true
  | _ => false

/-- Outcomes of the external tools for one request: whether the gTTS
engine call succeeds and the bytes it writes, whether the ffmpeg
conversion succeeds and the bytes it writes, and the ffprobe outcome
(an error, or metadata whose `format.duration` field may be absent). -/
structure Oracle where
  synthOk : Bool
  synthBytes : List Nat
  synthErr : String
  transcodeOk : Bool
  transcodeBytes : List Nat
  transcodeErr : String
  probe : Except String (Option ℚ)

/-- Everything observable about one handled request: the response, the
temporary directory and the durable directory after every cleanup step of
the request has run, whether the synthesis engine was invoked, the
language code handed to it, the counter value afterwards, the probed
duration (when the pipeline reached the probe), and the ffmpeg profile
used by the conversion step (when it ran). -/
structure HandlerResult where
  resp : Resp
  tempFs : FS
  savedFs : FS
  synthCalled : Bool
  langCode : Option String
  indexAfter : Nat
  duration : Option ℚ
  profileUsed : Option WavProfile

namespace S8

/-- Language alias table of `s8.js` (`LANGUAGE_MAP`). -/
def LANGUAGE_MAP : List (String × String) :=
  [("english", "en"), ("hindi", "hi"), ("arabic", "ar"), ("telugu", "te"),
   ("bengali", "bn"), ("urdu", "ur"), ("spanish", "es"),
   ("en", "en"), ("hi", "hi"), ("ar", "ar"), ("te", "te"), ("bn", "bn"),
   ("ur", "ur"), ("es", "es")]

/-- Display-name table of `s8.js` (`LANGUAGE_NAMES`). -/
def LANGUAGE_NAMES : List (String × String) :=
  [("en", "English"), ("hi", "Hindi"), ("ar", "Arabic"), ("te", "Telugu"),
   ("bn", "Bengali"), ("ur", "Urdu"), ("es", "Spanish")]

/-- Supported container formats of `s8.js`. -/
def SUPPORTED_FORMATS : List String := ["mp3", "wav"]

/-- Temporary directory of `s8.js` (path rendered relative). -/
def TEMP_DIR : String := "temp"

/-- Durable directory of `s8.js`. -/
def SAVED_DIR : String := "saved_audio"

/-- The `validateText` helper of `s8.js`: `!text`, non-strings and
blank strings are rejected as invalid, then the 5000 character bound is
enforced.  (A falsy `!text` string is empty, hence also blank, so the
first two JavaScript disjuncts collapse into the blank test on strings.) -/
def validateText (t : JSVal) : Option String :=
  match t with
  | .str s =>
      if jsIsBlank s then some "Invalid text"
      else if s.length > 5000 then some "Text too long (max 5000 chars)"
      else none
  | _ => some "Invalid text"

/-- The `getAudioDuration` helper of `s8.js`: the promise always
resolves; an ffprobe error resolves to the 5 second fallback, and a
missing or zero (falsy) `metadata.format.duration` also resolves to 5. -/
def getAudioDuration (r : Except String (Option ℚ)) : ℚ :=
  match r with
  | .error _ => 5
  | .ok none => 5
  | .ok (some d) => if d = 0 then 5 else d

/-- The ffmpeg options of the `convertToWav` helper of `s8.js`:
`pcm_s16le`, 1 channel, 22050 Hz. -/
def convertToWavProfile : WavProfile :=
  { codec := "pcm_s16le", channels := 1, frequency := 22050 }

/-- The `POST /api/tts` handler of `s8.js`.  It validates, synthesizes
into the temp directory, optionally converts to WAV (deleting the source
mp3), copies the finished artifact into the durable directory
(`fs.copyFileSync`) and only then unlinks the temporary copy, probes the
duration of the saved file, and answers with a JSON document.  Its catch
block answers 500 and performs no file cleanup. -/
def tts (idx : Nat) (tempFs savedFs : FS) (b : Body) (fileId : String)
    (o : Oracle) : HandlerResult :=
  match validateText b.text with
  | some err =>
      { resp := .code400 err, tempFs := tempFs, savedFs := savedFs,
        synthCalled := false, langCode := none, indexAfter := idx,
        duration := none, profileUsed := none }
  | none =>
    let language := jsToLower ((b.lang).getD "english")
    let format := jsToLower ((b.file).getD "mp3")
    match objGet LANGUAGE_MAP language with
    | none =>
        { resp := .code400 "Unsupported language", tempFs := tempFs,
          savedFs := savedFs, synthCalled := false, langCode := none,
          indexAfter := idx, duration := none, profileUsed := none }
    | some langCode =>
      if listIncludes SUPPORTED_FORMATS format = false then
        { resp := .code400 "Unsupported format", tempFs := tempFs,
          savedFs := savedFs, synthCalled := false, langCode := none,
          indexAfter := idx, duration := none, profileUsed := none }
      else
        let filename := "tts_" ++ toString idx ++ "." ++ format
        let idx1 := jsInc idx
        let tempMp3 := TEMP_DIR ++ "/" ++ fileId ++ ".mp3"
        if o.synthOk = false then
          -- generateSpeech rejected: the catch block answers 500 and
          -- deletes nothing.
          { resp := .code500 o.synthErr, tempFs := tempFs,
            savedFs := savedFs, synthCalled := true,
            langCode := some langCode, indexAfter := idx1,
            duration := none, profileUsed := none }
        else
          let fs1 := fsWrite tempFs tempMp3 o.synthBytes
          if format = "wav" then
            if o.transcodeOk = false then
              -- convertToWav rejected: 500, and again no cleanup, so the
              -- synthesized mp3 stays in the temp directory.
              { resp := .code500 o.transcodeErr, tempFs := fs1,
                savedFs := savedFs, synthCalled := true,
                langCode := some langCode, indexAfter := idx1,
                duration := none, profileUsed := some convertToWavProfile }
            else
              let wavPath := TEMP_DIR ++ "/" ++ fileId ++ ".wav"
              let fs2 := fsRemove (fsWrite fs1 wavPath o.transcodeBytes) tempMp3
              let savePath := SAVED_DIR ++ "/" ++ filename
              let saved1 := fsWrite savedFs savePath o.transcodeBytes
              let fs3 := fsRemove fs2 wavPath
              let dur := getAudioDuration o.probe
              { resp := .jsonOk filename format [], tempFs := fs3,
                savedFs := saved1, synthCalled := true,
                langCode := some langCode, indexAfter := idx1,
                duration := some dur, profileUsed := some convertToWavProfile }
          else
            let savePath := SAVED_DIR ++ "/" ++ filename
            let saved1 := fsWrite savedFs savePath o.synthBytes
            let fs2 := fsRemove fs1 tempMp3
            let dur := getAudioDuration o.probe
            { resp := .jsonOk filename format [], tempFs := fs2,
              savedFs := saved1, synthCalled := true,
              langCode := some langCode, indexAfter := idx1,
              duration := some dur, profileUsed := none }

/-- Model of `path.extname`: the suffix of the final path component from
its last dot onward; empty when there is no dot or the only dot starts
the name. -/
def extname (s : String) : String :=
  let r := s.data.reverse
  let pre := r.takeWhile fun c => c != '.'
  if pre.length + 1 < r.length then String.mk ('.' :: pre.reverse) else ""

/-- The `GET /audio/:filename` handler of `s8.js`: 404 when the file is
missing from the durable directory, otherwise a stream of its bytes with
the content type chosen by the lower-cased filename extension. -/
def audioGet (savedFs : FS) (filename : String) : Resp :=
  let filePath := SAVED_DIR ++ "/" ++ filename
  match fsRead savedFs filePath with
  | none => .code404 "File not found"
  | some bytes =>
    let ext := jsToLower (extname filename)
    let mimeType := if ext = ".wav" then "audio/wav" else "audio/mpeg"
    .streamOk mimeType filename bytes

end S8

namespace V1

/-- Language alias table of the first part_000 variant (identical to the
one in `s8.js`). -/
def LANGUAGE_MAP : List (String × String) :=
  [("english", "en"), ("hindi", "hi"), ("arabic", "ar"), ("telugu", "te"),
   ("bengali", "bn"), ("urdu", "ur"), ("spanish", "es"),
   ("en", "en"), ("hi", "hi"), ("ar", "ar"), ("te", "te"), ("bn", "bn"),
   ("ur", "ur"), ("es", "es")]

/-- Display-name table of the first part_000 variant. -/
def LANGUAGE_NAMES : List (String × String) :=
  [("en", "English"), ("hi", "Hindi"), ("ar", "Arabic"), ("te", "Telugu"),
   ("bn", "Bengali"), ("ur", "Urdu"), ("es", "Spanish")]

/-- Supported container formats of the first part_000 variant. -/
def SUPPORTED_FORMATS : List String := ["mp3", "wav"]

/-- Temporary directory of the first part_000 variant. -/
def TEMP_DIR : String := "temp"

/-- The `validateText` helper of the first part_000 variant (identical
to the one in `s8.js`). -/
def validateText (t : JSVal) : Option String :=
  match t with
  | .str s =>
      if jsIsBlank s then some "Invalid text"
      else if s.length > 5000 then some "Text too long (max 5000 chars)"
      else none
  | _ => some "Invalid text"

/-- The `getAudioDuration` helper of the first part_000 variant
(identical to the one in `s8.js`): always resolves, falling back to 5
seconds on an ffprobe error or a missing or zero duration. -/
def getAudioDuration (r : Except String (Option ℚ)) : ℚ :=
  match r with
  | .error _ => 5
  | .ok none => 5
  | .ok (some d) => if d = 0 then 5 else d

/-- The ffmpeg options of the `convertToWav` helper of the first
part_000 variant: `pcm_s16le`, 1 channel, 22050 Hz. -/
def convertToWavProfile : WavProfile :=
  { codec := "pcm_s16le", channels := 1, frequency := 22050 }

/-- The `POST /api/tts` handler of the first part_000 variant.  Tracked
temp files: the mp3 path is pushed before synthesis; the wav path only
after the conversion succeeds.  On success the artifact is streamed and
the tracked files are deleted after the response finish event plus the
one second grace delay (the post-grace state is what `tempFs` records);
the catch block deletes every tracked file that exists and answers 500. -/
def tts (idx : Nat) (tempFs : FS) (b : Body) (fileId : String)
    (o : Oracle) : HandlerResult :=
  match validateText b.text with
  | some err =>
      { resp := .code400 err, tempFs := tempFs, savedFs := [],
        synthCalled := false, langCode := none, indexAfter := idx,
        duration := none, profileUsed := none }
  | none =>
    let language := jsToLower ((b.lang).getD "english")
    let format := jsToLower ((b.file).getD "mp3")
    match objGet LANGUAGE_MAP language with
    | none =>
        { resp := .code400 "Unsupported language", tempFs := tempFs,
          savedFs := [], synthCalled := false, langCode := none,
          indexAfter := idx, duration := none, profileUsed := none }
    | some langCode =>
      if listIncludes SUPPORTED_FORMATS format = false then
        { resp := .code400 "Unsupported format", tempFs := tempFs,
          savedFs := [], synthCalled := false, langCode := none,
          indexAfter := idx, duration := none, profileUsed := none }
      else
        let filename := "t2a_" ++ toString idx ++ "." ++ format
        let idx1 := jsInc idx
        let mp3Path := TEMP_DIR ++ "/" ++ fileId ++ ".mp3"
        if o.synthOk = false then
          -- catch: tempFiles = [mp3Path]; the engine wrote nothing, and
          -- deleting a missing path is a no-op.
          { resp := .code500 o.synthErr, tempFs := fsRemove tempFs mp3Path,
            savedFs := [], synthCalled := true, langCode := some langCode,
            indexAfter := idx1, duration := none, profileUsed := none }
        else
          let fs1 := fsWrite tempFs mp3Path o.synthBytes
          if format = "wav" then
            if o.transcodeOk = false then
              -- catch: only mp3Path is tracked at this point.
              { resp := .code500 o.transcodeErr,
                tempFs := fsRemove fs1 mp3Path, savedFs := [],
                synthCalled := true, langCode := some langCode,
                indexAfter := idx1, duration := none,
                profileUsed := some convertToWavProfile }
            else
              let wavPath := TEMP_DIR ++ "/" ++ fileId ++ ".wav"
              let fs2 := fsWrite fs1 wavPath o.transcodeBytes
              let dur := getAudioDuration o.probe
              { resp := .streamOk "audio/wav" filename o.transcodeBytes,
                tempFs := fsRemove (fsRemove fs2 mp3Path) wavPath,
                savedFs := [], synthCalled := true,
                langCode := some langCode, indexAfter := idx1,
                duration := some dur,
                profileUsed := some convertToWavProfile }
          else
            let dur := getAudioDuration o.probe
            { resp := .streamOk "audio/mpeg" filename o.synthBytes,
              tempFs := fsRemove fs1 mp3Path, savedFs := [],
              synthCalled := true, langCode := some langCode,
              indexAfter := idx1, duration := some dur,
              profileUsed := none }

/-- The `POST /api/tts/complete` handler of the first part_000 variant.
It validates the text but, unlike every other endpoint, performs no
language and no format check: `langCode` is read straight from the map
(possibly `undefined`) and synthesis is invoked with it.  On success it
answers a JSON envelope with the base64 audio and deletes the tracked
files after the grace delay; the catch block deletes them and answers
500. -/
def complete (idx : Nat) (tempFs : FS) (b : Body) (fileId : String)
    (o : Oracle) : HandlerResult :=
  match validateText b.text with
  | some err =>
      { resp := .code400 err, tempFs := tempFs, savedFs := [],
        synthCalled := false, langCode := none, indexAfter := idx,
        duration := none, profileUsed := none }
  | none =>
    let language := jsToLower ((b.lang).getD "english")
    let format := jsToLower ((b.file).getD "mp3")
    -- No `LANGUAGE_MAP[language]` guard and no format guard here.
    let langCode := objGet LANGUAGE_MAP language
    let filename := "t2a_" ++ toString idx ++ "." ++ format
    let idx1 := jsInc idx
    let mp3Path := TEMP_DIR ++ "/" ++ fileId ++ ".mp3"
    if o.synthOk = false then
      { resp := .code500 o.synthErr, tempFs := fsRemove tempFs mp3Path,
        savedFs := [], synthCalled := true, langCode := langCode,
        indexAfter := idx1, duration := none, profileUsed := none }
    else
      let fs1 := fsWrite tempFs mp3Path o.synthBytes
      if format = "wav" then
        if o.transcodeOk = false then
          { resp := .code500 o.transcodeErr,
            tempFs := fsRemove fs1 mp3Path, savedFs := [],
            synthCalled := true, langCode := langCode,
            indexAfter := idx1, duration := none,
            profileUsed := some convertToWavProfile }
        else
          let wavPath := TEMP_DIR ++ "/" ++ fileId ++ ".wav"
          let fs2 := fsWrite fs1 wavPath o.transcodeBytes
          let dur := getAudioDuration o.probe
          { resp := .jsonOk filename "audio/wav" o.transcodeBytes,
            tempFs := fsRemove (fsRemove fs2 mp3Path) wavPath,
            savedFs := [], synthCalled := true, langCode := langCode,
            indexAfter := idx1, duration := some dur,
            profileUsed := some convertToWavProfile }
      else
        let dur := getAudioDuration o.probe
        { resp := .jsonOk filename "audio/mpeg" o.synthBytes,
          tempFs := fsRemove fs1 mp3Path, savedFs := [],
          synthCalled := true, langCode := langCode, indexAfter := idx1,
          duration := some dur, profileUsed := none }

end V1

namespace V2

/-- Language alias table of the second part_000 variant: only Hindi and
English. -/
def LANGUAGE_MAP : List (String × String) :=
  [("hindi", "hi"), ("english", "en"), ("hi", "hi"), ("en", "en")]

/-- Supported container formats of the second part_000 variant. -/
def SUPPORTED_FORMATS : List String := ["mp3", "wav"]

/-- Temporary directory of the second part_000 variant. -/
def TEMP_DIR : String := "temp"

/-- The inline validation of the second part_000 variant:
`if (!text || text.trim() === '')`.  There is no `typeof` guard and no
length bound, so a truthy non-string value reaches `.trim()` and raises
a TypeError (modelled as the `Except.error` case, which the enclosing
catch block turns into a 500). -/
def textCheck (t : JSVal) : Except String (Option String) :=
  match t with
  | .undef => .ok (some "Text field is required and cannot be empty")
  | .num n =>
      if n = 0 then .ok (some "Text field is required and cannot be empty")
      else .error "text.trim is not a function"
  | .str s =>
      .ok (if jsIsBlank s then some "Text field is required and cannot be empty"
           else none)

/-- The `getAudioDuration` helper of the second part_000 variant: it
rejects with the ffprobe error, and on success resolves with the raw
`metadata.format.duration` (possibly absent), with no fallback. -/
def getAudioDuration (r : Except String (Option ℚ)) :
    Except String (Option ℚ) :=
  match r with
  | .error e => .error e
  | .ok md => .ok md

/-- The ffmpeg options of the `convertToWav` helper of the second
part_000 variant: `pcm_s16le`, 2 channels, 44100 Hz. -/
def convertToWavProfile : WavProfile :=
  { codec := "pcm_s16le", channels := 2, frequency := 44100 }

/-- The `POST /api/tts` handler of the second part_000 variant.  The wav
path is pushed onto the tracked files before the conversion runs; a
probe rejection propagates to the catch block, which deletes the tracked
files and answers 500.  On success the artifact is streamed and the
tracked files are deleted after the finish event plus the grace delay. -/
def tts (idx : Nat) (tempFs : FS) (b : Body) (fileId : String)
    (o : Oracle) : HandlerResult :=
  match textCheck b.text with
  | .error e =>
      -- TypeError thrown during validation: no file is tracked yet, so
      -- the catch block deletes nothing and answers 500.
      { resp := .code500 e, tempFs := tempFs, savedFs := [],
        synthCalled := false, langCode := none, indexAfter := idx,
        duration := none, profileUsed := none }
  | .ok (some err) =>
      { resp := .code400 err, tempFs := tempFs, savedFs := [],
        synthCalled := false, langCode := none, indexAfter := idx,
        duration := none, profileUsed := none }
  | .ok none =>
    let language := jsToLower ((b.lang).getD "english")
    let format := jsToLower ((b.file).getD "mp3")
    match objGet LANGUAGE_MAP language with
    | none =>
        { resp := .code400 ("Unsupported language: " ++ language),
          tempFs := tempFs, savedFs := [], synthCalled := false,
          langCode := none, indexAfter := idx, duration := none,
          profileUsed := none }
    | some langCode =>
      if listIncludes SUPPORTED_FORMATS format = false then
        { resp := .code400 ("Unsupported file format: " ++ format),
          tempFs := tempFs, savedFs := [], synthCalled := false,
          langCode := none, indexAfter := idx, duration := none,
          profileUsed := none }
      else
        let filename := "t2a_" ++ toString idx ++ "." ++ format
        let idx1 := jsInc idx
        let mp3Path := TEMP_DIR ++ "/" ++ fileId ++ ".mp3"
        if o.synthOk = false then
          { resp := .code500 o.synthErr, tempFs := fsRemove tempFs mp3Path,
            savedFs := [], synthCalled := true, langCode := some langCode,
            indexAfter := idx1, duration := none, profileUsed := none }
        else
          let fs1 := fsWrite tempFs mp3Path o.synthBytes
          if format = "wav" then
            let wavPath := TEMP_DIR ++ "/" ++ fileId ++ ".wav"
            -- wavPath is tracked before the conversion is attempted.
            if o.transcodeOk = false then
              { resp := .code500 o.transcodeErr,
                tempFs := fsRemove (fsRemove fs1 mp3Path) wavPath,
                savedFs := [], synthCalled := true,
                langCode := some langCode, indexAfter := idx1,
                duration := none, profileUsed := some convertToWavProfile }
            else
              let fs2 := fsWrite fs1 wavPath o.transcodeBytes
              match getAudioDuration o.probe with
              | .error e =>
                  { resp := .code500 e,
                    tempFs := fsRemove (fsRemove fs2 mp3Path) wavPath,
                    savedFs := [], synthCalled := true,
                    langCode := some langCode, indexAfter := idx1,
                    duration := none,
                    profileUsed := some convertToWavProfile }
              | .ok d =>
                  { resp := .streamOk "audio/wav" filename o.transcodeBytes,
                    tempFs := fsRemove (fsRemove fs2 mp3Path) wavPath,
                    savedFs := [], synthCalled := true,
                    langCode := some langCode, indexAfter := idx1,
                    duration := d,
                    profileUsed := some convertToWavProfile }
          else
            match getAudioDuration o.probe with
            | .error e =>
                { resp := .code500 e, tempFs := fsRemove fs1 mp3Path,
                  savedFs := [], synthCalled := true,
                  langCode := some langCode, indexAfter := idx1,
                  duration := none, profileUsed := none }
            | .ok d =>
                { resp := .streamOk "audio/mpeg" filename o.synthBytes,
                  tempFs := fsRemove fs1 mp3Path, savedFs := [],
                  synthCalled := true, langCode := some langCode,
                  indexAfter := idx1, duration := d, profileUsed := none }

/-- The `POST /api/tts/json` handler of the second part_000 variant:
the same pipeline as its `POST /api/tts`, answering a JSON document
embedding the base64 audio, with the tracked files deleted after the
grace delay on success and in the catch block on failure. -/
def json (idx : Nat) (tempFs : FS) (b : Body) (fileId : String)
    (o : Oracle) : HandlerResult :=
  match textCheck b.text with
  | .error e =>
      { resp := .code500 e, tempFs := tempFs, savedFs := [],
        synthCalled := false, langCode := none, indexAfter := idx,
        duration := none, profileUsed := none }
  | .ok (some err) =>
      { resp := .code400 err, tempFs := tempFs, savedFs := [],
        synthCalled := false, langCode := none, indexAfter := idx,
        duration := none, profileUsed := none }
  | .ok none =>
    let language := jsToLower ((b.lang).getD "english")
    let format := jsToLower ((b.file).getD "mp3")
    match objGet LANGUAGE_MAP language with
    | none =>
        { resp := .code400 ("Unsupported language: " ++ language),
          tempFs := tempFs, savedFs := [], synthCalled := false,
          langCode := none, indexAfter := idx, duration := none,
          profileUsed := none }
    | some langCode =>
      if listIncludes SUPPORTED_FORMATS format = false then
        { resp := .code400 ("Unsupported file format: " ++ format),
          tempFs := tempFs, savedFs := [], synthCalled := false,
          langCode := none, indexAfter := idx, duration := none,
          profileUsed := none }
      else
        let filename := "t2a_" ++ toString idx ++ "." ++ format
        let idx1 := jsInc idx
        let mp3Path := TEMP_DIR ++ "/" ++ fileId ++ ".mp3"
        if o.synthOk = false then
          { resp := .code500 o.synthErr, tempFs := fsRemove tempFs mp3Path,
            savedFs := [], synthCalled := true, langCode := some langCode,
            indexAfter := idx1, duration := none, profileUsed := none }
        else
          let fs1 := fsWrite tempFs mp3Path o.synthBytes
          if format = "wav" then
            let wavPath := TEMP_DIR ++ "/" ++ fileId ++ ".wav"
            if o.transcodeOk = false then
              { resp := .code500 o.transcodeErr,
                tempFs := fsRemove (fsRemove fs1 mp3Path) wavPath,
                savedFs := [], synthCalled := true,
                langCode := some langCode, indexAfter := idx1,
                duration := none, profileUsed := some convertToWavProfile }
            else
              let fs2 := fsWrite fs1 wavPath o.transcodeBytes
              match getAudioDuration o.probe with
              | .error e =>
                  { resp := .code500 e,
                    tempFs := fsRemove (fsRemove fs2 mp3Path) wavPath,
                    savedFs := [], synthCalled := true,
                    langCode := some langCode, indexAfter := idx1,
                    duration := none,
                    profileUsed := some convertToWavProfile }
              | .ok d =>
                  { resp := .jsonOk filename "audio/wav" o.transcodeBytes,
                    tempFs := fsRemove (fsRemove fs2 mp3Path) wavPath,
                    savedFs := [], synthCalled := true,
                    langCode := some langCode, indexAfter := idx1,
                    duration := d,
                    profileUsed := some convertToWavProfile }
          else
            match getAudioDuration o.probe with
            | .error e =>
                { resp := .code500 e, tempFs := fsRemove fs1 mp3Path,
                  savedFs := [], synthCalled := true,
                  langCode := some langCode, indexAfter := idx1,
                  duration := none, profileUsed := none }
            | .ok d =>
                { resp := .jsonOk filename "audio/mpeg" o.synthBytes,
                  tempFs := fsRemove fs1 mp3Path, savedFs := [],
                  synthCalled := true, langCode := some langCode,
                  indexAfter := idx1, duration := d, profileUsed := none }

end V2

/-- One process run of the sequential counter: starting from counter
value `c`, hand out indices for `n` requests that reach filename
construction, returning the list of handed-out indices and the final
counter.  Each hand-out is the atomic read-and-increment of
`fileIndex++`: the JavaScript event loop runs the whole synchronous
prefix of a handler (validation through filename construction) without
interleaving, so concurrent requests serialize at this step. -/
def runCounter : Nat → Nat → List Nat × Nat
  | c, 0 => ([], c)
  | c, n + 1 =>
      let r := runCounter (jsInc c) n
      (c :: r.1, r.2)

example : S8.validateText (.str "Hello") = none := by decide
example : S8.validateText (.str "   ") = some "Invalid text" := by decide
example : S8.validateText .undef = some "Invalid text" := by decide
example : S8.validateText (.num 42) = some "Invalid text" := by decide
example : objGet S8.LANGUAGE_MAP "english" = some "en" := by decide
example : objGet S8.LANGUAGE_MAP "klingon" = none := by decide
example : S8.extname "tts_1.wav" = ".wav" := by decide
example : S8.extname "noext" = "" := by decide
example : jsToLower "WaV" = "wav" := by decide
example : listIncludes S8.SUPPORTED_FORMATS "wav" = true := by decide
example : listIncludes S8.SUPPORTED_FORMATS "ogg" = false := by decide
example :
    (S8.tts 1 [] [] ⟨.str "Hello", some "english", some "wav"⟩ "abc"
      ⟨true, [1, 2], "sx", false, [], "wav failed", .ok (some 1)⟩).tempFs
      = [("temp/abc.mp3", [1, 2])] := by decide
example :
    (S8.tts 1 [] [] ⟨.str "Hello", some "english", some "wav"⟩ "abc"
      ⟨true, [1, 2], "sx", true, [3, 4], "tx", .ok (some 1)⟩).tempFs
      = [] := by decide
example :
    (S8.tts 1 [] [] ⟨.str "Hello", some "english", some "wav"⟩ "abc"
      ⟨true, [1, 2], "sx", true, [3, 4], "tx", .ok (some 1)⟩).savedFs
      = [("saved_audio/tts_1.wav", [3, 4])] := by decide

/-! Helper lemmas about the filesystem model. -/

theorem fsRemove_nil (p : String) : fsRemove [] p = [] := rfl

theorem fsRead_fsWrite_self (fs : FS) (p : String) (b : List Nat) :
    fsRead (fsWrite fs p b) p = some b := by
  simp [fsWrite, fsRead]

theorem fsRemove_fsWrite_nil (p : String) (b : List Nat) :
    fsRemove (fsWrite [] p b) p = [] := by
  simp [fsWrite, fsRemove]

theorem fsRemove_fsRemove_fsWrite_nil (p q : String) (b : List Nat) :
    fsRemove (fsRemove (fsWrite [] p b) p) q = [] := by
  simp [fsWrite, fsRemove]

theorem fsRemove_two_fsWrite_nil (p q : String) (b1 b2 : List Nat) :
    fsRemove (fsRemove (fsWrite (fsWrite [] p b1) q b2) p) q = [] := by
  by_cases h : p = q
  · simp [fsWrite, fsRemove, h]
  · have h2 : ¬q = p := fun e => h e.symm
    simp [fsWrite, fsRemove, h, h2]

/-- Claim C1 counterexample: a `POST /api/tts` request to `s8.js` asking
for wav output whose ffmpeg conversion fails ends with a 500 response
while the synthesized temporary mp3 is still on disk — the catch block
of `s8.js` performs no cleanup, so the temporary artifact survives the
request. -/
theorem c1_counterexample :
    (S8.tts 1 [] [] ⟨.str "Hello", some "english", some "wav"⟩ "abc"
        ⟨true, [1, 2], "sx", false, [], "wav conversion failed",
          .ok (some 1)⟩).tempFs = [("temp/abc.mp3", [1, 2])] ∧
    (S8.tts 1 [] [] ⟨.str "Hello", some "english", some "wav"⟩ "abc"
        ⟨true, [1, 2], "sx", false, [], "wav conversion failed",
          .ok (some 1)⟩).resp = .code500 "wav conversion failed" := by
  constructor <;> decide

/-- Claim C1 amended: on the part_000 endpoints (both variants, both
response shapes) every temporary file created for a request is gone
after the cleanup grace period on every completion path, success or
failure; on the `s8.js` endpoint this holds on the success path, but its
catch block performs no cleanup. -/
theorem c1_theorem (idx : Nat) (b : Body) (fid : String) (o : Oracle) :
    (V1.tts idx [] b fid o).tempFs = [] ∧
    (V1.complete idx [] b fid o).tempFs = [] ∧
    (V2.tts idx [] b fid o).tempFs = [] ∧
    (V2.json idx [] b fid o).tempFs = [] ∧
    (o.synthOk = true → o.transcodeOk = true →
      (S8.tts idx [] [] b fid o).tempFs = []) := by
  refine ⟨?_, ?_, ?_, ?_, fun hs ht => ?_⟩
  · simp only [V1.tts]
    repeat' split
    all_goals simp [fsRemove_nil, fsRemove_fsWrite_nil,
      fsRemove_two_fsWrite_nil, fsRemove_fsRemove_fsWrite_nil]
  · simp only [V1.complete]
    repeat' split
    all_goals simp [fsRemove_nil, fsRemove_fsWrite_nil,
      fsRemove_two_fsWrite_nil, fsRemove_fsRemove_fsWrite_nil]
  · simp only [V2.tts]
    repeat' split
    all_goals simp [fsRemove_nil, fsRemove_fsWrite_nil,
      fsRemove_two_fsWrite_nil, fsRemove_fsRemove_fsWrite_nil]
  · simp only [V2.json]
    repeat' split
    all_goals simp [fsRemove_nil, fsRemove_fsWrite_nil,
      fsRemove_two_fsWrite_nil, fsRemove_fsRemove_fsWrite_nil]
  · simp only [S8.tts, hs, ht]
    repeat' split
    all_goals simp [fsRemove_nil, fsRemove_fsWrite_nil,
      fsRemove_two_fsWrite_nil, fsRemove_fsRemove_fsWrite_nil]

/-- Claim C1 witness. -/
theorem c1_witness :
    (V1.tts 1 [] ⟨.str "Hi", some "en", some "mp3"⟩ "x"
      ⟨true, [7], "s", true, [8], "t", .ok (some 2)⟩).tempFs = [] ∧
    (S8.tts 1 [] [] ⟨.str "Hi", some "en", some "mp3"⟩ "x"
      ⟨true, [7], "s", true, [8], "t", .ok (some 2)⟩).tempFs = [] := by
  exact ⟨(c1_theorem 1 ⟨.str "Hi", some "en", some "mp3"⟩ "x"
      ⟨true, [7], "s", true, [8], "t", .ok (some 2)⟩).1,
    (c1_theorem 1 ⟨.str "Hi", some "en", some "mp3"⟩ "x"
      ⟨true, [7], "s", true, [8], "t", .ok (some 2)⟩).2.2.2.2 rfl rfl⟩

/-- Claim C2 counterexample: the second part_000 variant's
`getAudioDuration` rejects on an ffprobe failure instead of resolving
with the 5 second fallback, and on its `POST /api/tts` endpoint the
probe failure surfaces as a 500 response of the request. -/
theorem c2_counterexample :
    V2.getAudioDuration (.error "probe failed") = .error "probe failed" ∧
    (V2.tts 1 [] ⟨.str "Hello", some "english", some "mp3"⟩ "abc"
        ⟨true, [7], "s", true, [8], "t", .error "probe failed"⟩).resp
      = .code500 "probe failed" := by
  exact ⟨rfl, by decide⟩

/-- Claim C2 amended: the `s8.js` probe and the first part_000 variant's
probe resolve with the 5 second fallback on failure, and on the
endpoints built from them a request whose synthesis and transcoding
succeed never answers 500, whatever the probe outcome; the second
part_000 variant's probe instead rejects on failure and the rejection
propagates. -/
theorem c2_theorem :
    (∀ e, S8.getAudioDuration (.error e) = 5 ∧
      V1.getAudioDuration (.error e) = 5 ∧
      V2.getAudioDuration (.error e) = .error e) ∧
    (∀ (idx : Nat) (tfs sfs : FS) (b : Body) (fid : String) (o : Oracle),
      o.synthOk = true → o.transcodeOk = true →
        (S8.tts idx tfs sfs b fid o).resp.is500 = false ∧
        (V1.tts idx tfs b fid o).resp.is500 = false ∧
        (V1.complete idx tfs b fid o).resp.is500 = false) := by
  refine ⟨fun e => ⟨rfl, rfl, rfl⟩, fun idx tfs sfs b fid o hs ht => ⟨?_, ?_, ?_⟩⟩
  · simp only [S8.tts, hs, ht]
    repeat' split
    all_goals simp_all [Resp.is500]
  · simp only [V1.tts, hs, ht]
    repeat' split
    all_goals simp_all [Resp.is500]
  · simp only [V1.complete, hs, ht]
    repeat' split
    all_goals simp_all [Resp.is500]

/-- Claim C2 witness. -/
theorem c2_witness :
    S8.getAudioDuration (.error "x") = 5 ∧
    (S8.tts 1 [] [] ⟨.str "Hi", some "en", some "mp3"⟩ "f"
      ⟨true, [7], "s", true, [8], "t", .error "x"⟩).resp.is500 = false := by
  exact ⟨(c2_theorem.1 "x").1,
    (c2_theorem.2 1 [] [] ⟨.str "Hi", some "en", some "mp3"⟩ "f"
      ⟨true, [7], "s", true, [8], "t", .error "x"⟩ rfl rfl).1⟩

/-- Claim C3 counterexample: a request with the unsupported language
"klingon" to `POST /api/tts/complete` (the JSON-enveloped endpoint of
the first part_000 variant) is not rejected: synthesis is invoked with
an unresolved (`undefined`) language code and the request succeeds. -/
theorem c3_counterexample :
    (V1.complete 1 [] ⟨.str "Hello", some "klingon", some "mp3"⟩ "abc"
        ⟨true, [7], "s", true, [8], "t", .ok (some 2)⟩).resp
      = .jsonOk "t2a_1.mp3" "audio/mpeg" [7] ∧
    (V1.complete 1 [] ⟨.str "Hello", some "klingon", some "mp3"⟩ "abc"
        ⟨true, [7], "s", true, [8], "t", .ok (some 2)⟩).synthCalled = true ∧
    (V1.complete 1 [] ⟨.str "Hello", some "klingon", some "mp3"⟩ "abc"
        ⟨true, [7], "s", true, [8], "t", .ok (some 2)⟩).langCode = none := by
  refine ⟨?_, ?_, ?_⟩ <;> decide

/-- Claim C3 amended: on `POST /api/tts` of all three variants and on
`POST /api/tts/json` of the second variant, a language value that does
not resolve through the language map is rejected with the unsupported
language error before synthesis is attempted; `POST /api/tts/complete`
performs no such check and invokes synthesis with whatever (possibly
unresolved) code the map lookup produced. -/
theorem c3_theorem (idx : Nat) (tfs sfs : FS) (b : Body) (fid : String)
    (o : Oracle) :
    (S8.validateText b.text = none →
      objGet S8.LANGUAGE_MAP (jsToLower (b.lang.getD "english")) = none →
        (S8.tts idx tfs sfs b fid o).resp = .code400 "Unsupported language" ∧
        (S8.tts idx tfs sfs b fid o).synthCalled = false) ∧
    (V1.validateText b.text = none →
      objGet V1.LANGUAGE_MAP (jsToLower (b.lang.getD "english")) = none →
        (V1.tts idx tfs b fid o).resp = .code400 "Unsupported language" ∧
        (V1.tts idx tfs b fid o).synthCalled = false) ∧
    (V2.textCheck b.text = .ok none →
      objGet V2.LANGUAGE_MAP (jsToLower (b.lang.getD "english")) = none →
        (V2.tts idx tfs b fid o).resp
          = .code400 ("Unsupported language: "
              ++ jsToLower (b.lang.getD "english")) ∧
        (V2.tts idx tfs b fid o).synthCalled = false ∧
        (V2.json idx tfs b fid o).resp
          = .code400 ("Unsupported language: "
              ++ jsToLower (b.lang.getD "english")) ∧
        (V2.json idx tfs b fid o).synthCalled = false) ∧
    (V1.validateText b.text = none →
      (V1.complete idx tfs b fid o).synthCalled = true ∧
      (V1.complete idx tfs b fid o).langCode
        = objGet V1.LANGUAGE_MAP (jsToLower (b.lang.getD "english"))) := by
  refine ⟨fun hv hl => ?_, fun hv hl => ?_, fun hv hl => ?_, fun hv => ?_⟩
  · simp [S8.tts, hv, hl]
  · simp [V1.tts, hv, hl]
  · simp [V2.tts, V2.json, hv, hl]
  · simp only [V1.complete, hv]
    repeat' split
    all_goals simp

/-- Claim C3 witness. -/
theorem c3_witness :
    (S8.tts 1 [] [] ⟨.str "Hi", some "klingon", some "mp3"⟩ "f"
        ⟨true, [7], "s", true, [8], "t", .ok (some 2)⟩).resp
      = .code400 "Unsupported language" ∧
    (V1.complete 1 [] ⟨.str "Hi", some "en", some "mp3"⟩ "f"
        ⟨true, [7], "s", true, [8], "t", .ok (some 2)⟩).synthCalled = true := by
  exact ⟨((c3_theorem 1 [] [] ⟨.str "Hi", some "klingon", some "mp3"⟩ "f"
      ⟨true, [7], "s", true, [8], "t", .ok (some 2)⟩).1 rfl rfl).1,
    ((c3_theorem 1 [] [] ⟨.str "Hi", some "en", some "mp3"⟩ "f"
      ⟨true, [7], "s", true, [8], "t", .ok (some 2)⟩).2.2.2 rfl).1⟩

/-- Claim C4 counterexample: a 5001-character text sent to the second
part_000 variant's `POST /api/tts` is not rejected as too long — that
endpoint checks only for emptiness and processes the request
successfully (its own `/api/tts/info` even advertises "no length
limit"). -/
theorem c4_counterexample :
    (String.mk (List.replicate 5001 'a')).length > 5000 ∧
    (V2.tts 1 [] ⟨.str (String.mk (List.replicate 5001 'a')),
        some "english", some "mp3"⟩ "abc"
        ⟨true, [7], "s", true, [8], "t", .ok (some 2)⟩).resp
      = .streamOk "audio/mpeg" "t2a_1.mp3" [7] := by
  constructor
  · have h : (String.mk (List.replicate 5001 'a')).length
        = (List.replicate 5001 'a').length := rfl
    rw [h, List.length_replicate]
    omega
  · rfl

/-- Claim C4 amended: a text longer than 5000 characters is rejected
with the "too long" validation error on the `s8.js` endpoint and on
both endpoints of the first part_000 variant; the second part_000
variant imposes no length bound and processes such requests. -/
theorem c4_theorem (idx : Nat) (tfs sfs : FS) (b : Body) (fid : String)
    (o : Oracle) (s : String) (h1 : b.text = .str s)
    (h2 : jsIsBlank s = false) (h3 : s.length > 5000) :
    (S8.tts idx tfs sfs b fid o).resp
      = .code400 "Text too long (max 5000 chars)" ∧
    (S8.tts idx tfs sfs b fid o).tempFs = tfs ∧
    (S8.tts idx tfs sfs b fid o).synthCalled = false ∧
    (V1.tts idx tfs b fid o).resp
      = .code400 "Text too long (max 5000 chars)" ∧
    (V1.tts idx tfs b fid o).synthCalled = false ∧
    (V1.complete idx tfs b fid o).resp
      = .code400 "Text too long (max 5000 chars)" ∧
    (V1.complete idx tfs b fid o).synthCalled = false := by
  have hv : S8.validateText b.text = some "Text too long (max 5000 chars)" := by
    simp [S8.validateText, h1, h2, h3]
  have hv1 : V1.validateText b.text = some "Text too long (max 5000 chars)" := by
    simp [V1.validateText, h1, h2, h3]
  refine ⟨?_, ?_, ?_, ?_, ?_, ?_, ?_⟩ <;>
    simp [S8.tts, V1.tts, V1.complete, hv, hv1]

/-- Claim C4 witness. -/
theorem c4_witness :
    (S8.tts 1 [] [] ⟨.str (String.mk (List.replicate 5001 'a')),
        some "english", some "mp3"⟩ "f"
        ⟨true, [7], "s", true, [8], "t", .ok (some 2)⟩).resp
      = .code400 "Text too long (max 5000 chars)" := by
  exact (c4_theorem 1 [] [] ⟨.str (String.mk (List.replicate 5001 'a')),
      some "english", some "mp3"⟩ "f"
      ⟨true, [7], "s", true, [8], "t", .ok (some 2)⟩
      (String.mk (List.replicate 5001 'a')) rfl (by decide)
      (by
        have h : (String.mk (List.replicate 5001 'a')).length
            = (List.replicate 5001 'a').length := rfl
        rw [h, List.length_replicate]
        omega)).1

/-- Claim C5 counterexample: on the second part_000 variant a truthy
non-string `text` (the number 42) slips past the `!text` test, raises a
TypeError at `text.trim()`, and is answered with a 500 — not with the
400 validation error the claim requires (no artifact is created,
though). -/
theorem c5_counterexample :
    (V2.tts 1 [] ⟨.num 42, some "english", some "mp3"⟩ "abc"
        ⟨true, [7], "s", true, [8], "t", .ok (some 2)⟩).resp
      = .code500 "text.trim is not a function" ∧
    (V2.tts 1 [] ⟨.num 42, some "english", some "mp3"⟩ "abc"
        ⟨true, [7], "s", true, [8], "t", .ok (some 2)⟩).resp.is400
      = false ∧
    (V2.tts 1 [] ⟨.num 42, some "english", some "mp3"⟩ "abc"
        ⟨true, [7], "s", true, [8], "t", .ok (some 2)⟩).tempFs = [] := by
  refine ⟨?_, ?_, ?_⟩ <;> decide

/-- Claim C5 amended: text that is absent, a non-string, empty or
whitespace-only is answered with a 400 validation error — and no file is
created and synthesis is never invoked — on the `s8.js` endpoint and on
both endpoints of the first part_000 variant.  On the second part_000
variant the same holds for absent, zero, empty or whitespace-only text,
but a truthy non-string raises a TypeError that is answered as a 500
(still with no file created and no synthesis). -/
theorem c5_theorem (idx : Nat) (tfs sfs : FS) (b : Body) (fid : String)
    (o : Oracle) :
    (b.text = .undef ∨ (∃ n, b.text = .num n) ∨
        (∃ s, b.text = .str s ∧ jsIsBlank s = true) →
      (S8.tts idx tfs sfs b fid o).resp = .code400 "Invalid text" ∧
      (S8.tts idx tfs sfs b fid o).tempFs = tfs ∧
      (S8.tts idx tfs sfs b fid o).savedFs = sfs ∧
      (S8.tts idx tfs sfs b fid o).synthCalled = false ∧
      (V1.tts idx tfs b fid o).resp = .code400 "Invalid text" ∧
      (V1.tts idx tfs b fid o).tempFs = tfs ∧
      (V1.tts idx tfs b fid o).synthCalled = false ∧
      (V1.complete idx tfs b fid o).resp = .code400 "Invalid text" ∧
      (V1.complete idx tfs b fid o).tempFs = tfs ∧
      (V1.complete idx tfs b fid o).synthCalled = false) ∧
    (b.text = .undef ∨ b.text = .num 0 ∨
        (∃ s, b.text = .str s ∧ jsIsBlank s = true) →
      (V2.tts idx tfs b fid o).resp
        = .code400 "Text field is required and cannot be empty" ∧
      (V2.tts idx tfs b fid o).tempFs = tfs ∧
      (V2.tts idx tfs b fid o).synthCalled = false ∧
      (V2.json idx tfs b fid o).resp
        = .code400 "Text field is required and cannot be empty" ∧
      (V2.json idx tfs b fid o).tempFs = tfs ∧
      (V2.json idx tfs b fid o).synthCalled = false) ∧
    (∀ n : Int, b.text = .num n → n ≠ 0 →
      (V2.tts idx tfs b fid o).resp
        = .code500 "text.trim is not a function" ∧
      (V2.tts idx tfs b fid o).tempFs = tfs ∧
      (V2.tts idx tfs b fid o).synthCalled = false ∧
      (V2.json idx tfs b fid o).resp
        = .code500 "text.trim is not a function" ∧
      (V2.json idx tfs b fid o).tempFs = tfs ∧
      (V2.json idx tfs b fid o).synthCalled = false) := by
  refine ⟨fun h => ?_, fun h => ?_, fun n hn hnz => ?_⟩
  · have hv : S8.validateText b.text = some "Invalid text" := by
      rcases h with h | ⟨n, h⟩ | ⟨s, h, hb⟩
      · simp [S8.validateText, h]
      · simp [S8.validateText, h]
      · simp [S8.validateText, h, hb]
    have hv1 : V1.validateText b.text = some "Invalid text" := hv
    simp [S8.tts, V1.tts, V1.complete, hv, hv1]
  · have hv : V2.textCheck b.text
        = .ok (some "Text field is required and cannot be empty") := by
      rcases h with h | h | ⟨s, h, hb⟩
      · simp [V2.textCheck, h]
      · simp [V2.textCheck, h]
      · simp [V2.textCheck, h, hb]
    simp [V2.tts, V2.json, hv]
  · have hv : V2.textCheck b.text = .error "text.trim is not a function" := by
      simp [V2.textCheck, hn, hnz]
    simp [V2.tts, V2.json, hv]

/-- Claim C5 witness. -/
theorem c5_witness :
    (S8.tts 1 [] [] ⟨.str "   ", some "english", some "mp3"⟩ "f"
        ⟨true, [7], "s", true, [8], "t", .ok (some 2)⟩).resp
      = .code400 "Invalid text" ∧
    (V2.tts 1 [] ⟨.num 5, some "english", some "mp3"⟩ "f"
        ⟨true, [7], "s", true, [8], "t", .ok (some 2)⟩).resp
      = .code500 "text.trim is not a function" := by
  exact ⟨((c5_theorem 1 [] [] ⟨.str "   ", some "english", some "mp3"⟩ "f"
      ⟨true, [7], "s", true, [8], "t", .ok (some 2)⟩).1
      (Or.inr (Or.inr ⟨"   ", rfl, by decide⟩))).1,
    ((c5_theorem 1 [] [] ⟨.num 5, some "english", some "mp3"⟩ "f"
      ⟨true, [7], "s", true, [8], "t", .ok (some 2)⟩).2.2 5 rfl
      (by decide)).1⟩

/-- Claim C6 counterexample: the second part_000 variant's
`convertToWav` resamples to 2 channels at 44100 Hz, so the resampling
profile is neither mono/22050 there nor the same across all endpoint
variants. -/
theorem c6_counterexample :
    V2.convertToWavProfile ≠ S8.convertToWavProfile ∧
    V2.convertToWavProfile.channels = 2 ∧
    V2.convertToWavProfile.frequency = 44100 := by
  refine ⟨?_, ?_, ?_⟩ <;> decide

/-- Claim C6 amended: the `s8.js` and first part_000 variant conversion
steps both produce 16-bit PCM WAV with 1 channel at 22050 Hz — and that
profile is what their wav-format requests actually use — while the
second part_000 variant uses 16-bit PCM with 2 channels at 44100 Hz, so
the profile is not internally consistent across all variants. -/
theorem c6_theorem :
    S8.convertToWavProfile
      = { codec := "pcm_s16le", channels := 1, frequency := 22050 } ∧
    V1.convertToWavProfile = S8.convertToWavProfile ∧
    V2.convertToWavProfile
      = { codec := "pcm_s16le", channels := 2, frequency := 44100 } ∧
    ∀ (idx : Nat) (tfs sfs : FS) (b : Body) (fid : String) (o : Oracle),
      b.file = some "wav" → S8.validateText b.text = none →
      o.synthOk = true →
      (∀ c, objGet S8.LANGUAGE_MAP (jsToLower (b.lang.getD "english"))
          = some c →
        (S8.tts idx tfs sfs b fid o).profileUsed
          = some S8.convertToWavProfile ∧
        (V1.tts idx tfs b fid o).profileUsed
          = some V1.convertToWavProfile) ∧
      (V1.complete idx tfs b fid o).profileUsed
        = some V1.convertToWavProfile ∧
      (∀ c, objGet V2.LANGUAGE_MAP (jsToLower (b.lang.getD "english"))
          = some c →
        (V2.tts idx tfs b fid o).profileUsed
          = some V2.convertToWavProfile ∧
        (V2.json idx tfs b fid o).profileUsed
          = some V2.convertToWavProfile) := by
  refine ⟨rfl, rfl, rfl, fun idx tfs sfs b fid o hf hv hs => ?_⟩
  have hv1 : V1.validateText b.text = none := hv
  have hvc : V2.textCheck b.text = .ok none := by
    rcases hb : b.text with _ | s | n <;> rw [hb] at hv
    · simp [S8.validateText] at hv
    · by_cases hbl : jsIsBlank s = true
      · simp [S8.validateText, hbl] at hv
      · simp [V2.textCheck, hbl]
    · simp [S8.validateText] at hv
  have hw : jsToLower "wav" = "wav" := rfl
  have hmap : V1.LANGUAGE_MAP = S8.LANGUAGE_MAP := rfl
  have hfs8 : listIncludes S8.SUPPORTED_FORMATS "wav" = true := rfl
  have hfv1 : listIncludes V1.SUPPORTED_FORMATS "wav" = true := rfl
  have hfv2 : listIncludes V2.SUPPORTED_FORMATS "wav" = true := rfl
  refine ⟨fun c hc => ⟨?_, ?_⟩, ?_, fun c hc => ⟨?_, ?_⟩⟩
  · simp only [S8.tts, hv, hc, hf, hs]
    repeat' split
    all_goals simp_all
  · simp only [V1.tts, hv1, hc, hf, hs]
    repeat' split
    all_goals simp_all
  · simp only [V1.complete, hv1, hf, hs]
    repeat' split
    all_goals simp_all
  · simp only [V2.tts, hvc, hc, hf, hs]
    repeat' split
    all_goals simp_all
  · simp only [V2.json, hvc, hc, hf, hs]
    repeat' split
    all_goals simp_all

/-- Claim C6 witness. -/
theorem c6_witness :
    (S8.tts 1 [] [] ⟨.str "Hi", some "english", some "wav"⟩ "f"
        ⟨true, [7], "s", true, [8], "t", .ok (some 2)⟩).profileUsed
      = some S8.convertToWavProfile ∧
    (V2.tts 1 [] ⟨.str "Hi", some "english", some "wav"⟩ "f"
        ⟨true, [7], "s", true, [8], "t", .ok (some 2)⟩).profileUsed
      = some V2.convertToWavProfile := by
  exact ⟨(((c6_theorem.2.2.2 1 [] [] ⟨.str "Hi", some "english", some "wav"⟩
      "f" ⟨true, [7], "s", true, [8], "t", .ok (some 2)⟩ rfl (by decide)
      rfl).1 "en" (by decide)).1),
    (((c6_theorem.2.2.2 1 [] [] ⟨.str "Hi", some "english", some "wav"⟩
      "f" ⟨true, [7], "s", true, [8], "t", .ok (some 2)⟩ rfl (by decide)
      rfl).2.2 "en" (by decide)).1)⟩

/-- The exact hand-out list of one counter run: starting below the
IEEE-exact bound, the counter hands out consecutive indices and ends
`n` above where it started. -/
theorem runCounter_eq (c n : Nat) (h : c + n ≤ 2 ^ 53) :
    (runCounter c n).1 = List.range' c n ∧ (runCounter c n).2 = c + n := by
  induction n generalizing c with
  | zero => simp [runCounter]
  | succ n ih =>
    have hc : c < 2 ^ 53 := by omega
    have hinc : jsInc c = c + 1 := by
      unfold jsInc
      exact if_pos hc
    obtain ⟨ih1, ih2⟩ := ih (c + 1) (by omega)
    constructor
    · show c :: (runCounter (jsInc c) n).1 = List.range' c (n + 1)
      rw [hinc, ih1, List.range'_succ]
    · show (runCounter (jsInc c) n).2 = c + (n + 1)
      rw [hinc, ih2]
      omega

/-- Claim C7: while the counter stays in the IEEE-double-exact integer
range (it starts at 1; exhausting the range would take `2 ^ 53` requests
in one process), each request that reaches filename construction
advances the counter by exactly one atomic `jsInc` step — filename
construction and the increment happen in the same synchronous slice of
the handler, so concurrent requests serialize around it — and the
handed-out indices of a process run are consecutive and pairwise
distinct. -/
theorem c7_theorem :
    (∀ c n, c + n ≤ 2 ^ 53 →
      (runCounter c n).1 = List.range' c n ∧
      (runCounter c n).1.Nodup ∧
      (runCounter c n).2 = c + n) ∧
    (∀ (idx : Nat) (tfs sfs : FS) (b : Body) (fid : String) (o : Oracle),
      ((S8.tts idx tfs sfs b fid o).synthCalled = true →
        (S8.tts idx tfs sfs b fid o).indexAfter = jsInc idx) ∧
      ((V1.tts idx tfs b fid o).synthCalled = true →
        (V1.tts idx tfs b fid o).indexAfter = jsInc idx) ∧
      ((V1.complete idx tfs b fid o).synthCalled = true →
        (V1.complete idx tfs b fid o).indexAfter = jsInc idx) ∧
      ((V2.tts idx tfs b fid o).synthCalled = true →
        (V2.tts idx tfs b fid o).indexAfter = jsInc idx) ∧
      ((V2.json idx tfs b fid o).synthCalled = true →
        (V2.json idx tfs b fid o).indexAfter = jsInc idx)) := by
  constructor
  · intro c n h
    obtain ⟨h1, h2⟩ := runCounter_eq c n h
    exact ⟨h1, by rw [h1]; exact List.nodup_range' c n, h2⟩
  · intro idx tfs sfs b fid o
    refine ⟨?_, ?_, ?_, ?_, ?_⟩
    · simp only [S8.tts]
      repeat' split
      all_goals simp
    · simp only [V1.tts]
      repeat' split
      all_goals simp
    · simp only [V1.complete]
      repeat' split
      all_goals simp
    · simp only [V2.tts]
      repeat' split
      all_goals simp
    · simp only [V2.json]
      repeat' split
      all_goals simp

/-- Claim C7 witness. -/
theorem c7_witness :
    (runCounter 1 3).1 = [1, 2, 3] ∧ (runCounter 1 3).1.Nodup ∧
    (S8.tts 1 [] [] ⟨.str "Hi", some "en", some "mp3"⟩ "f"
        ⟨true, [7], "s", true, [8], "t", .ok (some 2)⟩).indexAfter
      = jsInc 1 := by
  refine ⟨?_, ((c7_theorem.1 1 3 (by decide)).2.1), ?_⟩
  · have := (c7_theorem.1 1 3 (by decide)).1
    rw [this]
    decide
  · exact ((c7_theorem.2 1 [] [] ⟨.str "Hi", some "en", some "mp3"⟩ "f"
      ⟨true, [7], "s", true, [8], "t", .ok (some 2)⟩).1 (by decide))

/-- Claim C8: every alias of each language map resolves to a canonical
code that resolves to itself (the maps are idempotent), every canonical
code reachable from an alias has a display name, and the display-name
table binds each canonical code exactly once. -/
theorem c8_theorem :
    (S8.LANGUAGE_MAP.all fun p =>
      objGet S8.LANGUAGE_MAP p.2 == some p.2) = true ∧
    (S8.LANGUAGE_MAP.all fun p =>
      (objGet S8.LANGUAGE_NAMES p.2).isSome) = true ∧
    (S8.LANGUAGE_NAMES.map Prod.fst).Nodup ∧
    (V1.LANGUAGE_MAP.all fun p =>
      objGet V1.LANGUAGE_MAP p.2 == some p.2) = true ∧
    (V1.LANGUAGE_MAP.all fun p =>
      (objGet V1.LANGUAGE_NAMES p.2).isSome) = true ∧
    (V1.LANGUAGE_NAMES.map Prod.fst).Nodup ∧
    (V2.LANGUAGE_MAP.all fun p =>
      objGet V2.LANGUAGE_MAP p.2 == some p.2) = true := by
  refine ⟨?_, ?_, ?_, ?_, ?_, ?_, ?_⟩ <;> decide

/-- Decimal digit characters are never a dot. -/
theorem digitChar_ne_dot : ∀ n : Nat, Nat.digitChar n ≠ '.'
  | 0 => by decide
  | 1 => by decide
  | 2 => by decide
  | 3 => by decide
  | 4 => by decide
  | 5 => by decide
  | 6 => by decide
  | 7 => by decide
  | 8 => by decide
  | 9 => by decide
  | 10 => by decide
  | 11 => by decide
  | 12 => by decide
  | 13 => by decide
  | 14 => by decide
  | 15 => by decide
  | (n + 16) => by
      have h : Nat.digitChar (n + 16) = '*' := by
        unfold Nat.digitChar
        repeat rw [if_neg (by omega)]
      rw [h]
      decide

/-- The digit accumulator of `Nat.repr` never produces a dot. -/
theorem toDigitsCore_ne_dot (fuel : Nat) :
    ∀ (n : Nat) (ds : List Char), (∀ x ∈ ds, x ≠ '.') →
      ∀ x ∈ Nat.toDigitsCore 10 fuel n ds, x ≠ '.' := by
  induction fuel with
  | zero =>
    intro n ds h x hx
    exact h x hx
  | succ fuel ih =>
    intro n ds h x hx
    have hcons : ∀ y ∈ Nat.digitChar (n % 10) :: ds, y ≠ '.' := by
      intro y hy
      rcases List.mem_cons.mp hy with h1 | h1
      · subst h1
        exact digitChar_ne_dot (n % 10)
      · exact h y h1
    simp only [Nat.toDigitsCore] at hx
    split at hx
    · exact hcons x hx
    · exact ih (n / 10) (Nat.digitChar (n % 10) :: ds) hcons x hx

/-- The decimal rendering of a natural number contains no dot. -/
theorem toString_nat_ne_dot (n : Nat) : ∀ x ∈ (toString n).data, x ≠ '.' := by
  have h0 : (toString n).data = Nat.toDigitsCore 10 (n + 1) n [] := rfl
  rw [h0]
  exact toDigitsCore_ne_dot (n + 1) n [] (by intro x hx; simp at hx)

/-- `takeWhile` swallows a prefix it accepts whole and stops at the
first rejected element. -/
theorem takeWhile_append_stop (p : Char → Bool) :
    ∀ (l1 : List Char) (a : Char) (l2 : List Char),
      (∀ x ∈ l1, p x = true) → p a = false →
      (l1 ++ a :: l2).takeWhile p = l1 := by
  intro l1
  induction l1 with
  | nil =>
    intro a l2 h hpa
    simp [List.takeWhile_cons, hpa]
  | cons b l ih =>
    intro a l2 h hpa
    have hb : p b = true := h b (by simp)
    simp [List.takeWhile_cons, hb,
      ih a l2 (fun x hx => h x (by simp [hx])) hpa]

/-- `path.extname` of a dot-free base followed by a dot and a dot-free
nonempty extension is that dot-plus-extension suffix. -/
theorem extname_concat (base ext : String)
    (hbase : base.data ≠ []) (hb : ∀ x ∈ base.data, x ≠ '.')
    (he : ∀ x ∈ ext.data, x ≠ '.') :
    S8.extname (base ++ "." ++ ext) = "." ++ ext := by
  obtain ⟨bl⟩ := base
  obtain ⟨el⟩ := ext
  show S8.extname (String.mk ((bl ++ ['.']) ++ el)) = String.mk ('.' :: el)
  unfold S8.extname
  have hrev : (((bl ++ ['.']) ++ el)).reverse
      = el.reverse ++ '.' :: bl.reverse := by
    simp
  have hpre : (el.reverse ++ '.' :: bl.reverse).takeWhile (fun c => c != '.')
      = el.reverse := by
    refine takeWhile_append_stop _ el.reverse '.' bl.reverse ?_ (by decide)
    intro x hx
    have hxe : x ∈ el := List.mem_reverse.mp hx
    simp [he x hxe]
  have hlen : el.reverse.length + 1 < (el.reverse ++ '.' :: bl.reverse).length := by
    simp
    cases bl with
    | nil => exact absurd rfl hbase
    | cons c cl => simp
  simp only [hrev, hpre, hlen, if_pos]
  simp

/-- Retrieving a freshly persisted file from the durable store streams
its bytes back with the content type chosen by the filename extension. -/
theorem audioGet_fsWrite (sfs : FS) (fname : String) (content : List Nat) :
    S8.audioGet (fsWrite sfs (S8.SAVED_DIR ++ "/" ++ fname) content) fname
      = .streamOk
          (if jsToLower (S8.extname fname) = ".wav" then "audio/wav"
            else "audio/mpeg")
          fname content := by
  simp only [S8.audioGet]
  rw [fsRead_fsWrite_self]

/-- Claim C9: a successful `s8.js` request persists the finished
artifact bytes verbatim into the durable directory under its display
filename (via `fs.copyFileSync`, the temporary copies being deleted
separately afterwards, as witnessed by the emptied temp directory), and
a subsequent `GET /audio/:filename` for that name streams back exactly
those bytes with the content type chosen by the filename extension:
`audio/wav` for `.wav`, `audio/mpeg` otherwise. -/
theorem c9_theorem (idx : Nat) (sfs : FS) (b : Body) (fid : String)
    (o : Oracle) (hv : S8.validateText b.text = none) (c : String)
    (hc : objGet S8.LANGUAGE_MAP (jsToLower (b.lang.getD "english")) = some c)
    (hs : o.synthOk = true) (ht : o.transcodeOk = true) :
    (b.file = some "wav" →
      (S8.tts idx [] sfs b fid o).savedFs
        = fsWrite sfs
            (S8.SAVED_DIR ++ "/" ++ ("tts_" ++ toString idx ++ "." ++ "wav"))
            o.transcodeBytes ∧
      S8.audioGet (S8.tts idx [] sfs b fid o).savedFs
          ("tts_" ++ toString idx ++ "." ++ "wav")
        = .streamOk "audio/wav" ("tts_" ++ toString idx ++ "." ++ "wav")
            o.transcodeBytes ∧
      (S8.tts idx [] sfs b fid o).tempFs = []) ∧
    (b.file = some "mp3" →
      (S8.tts idx [] sfs b fid o).savedFs
        = fsWrite sfs
            (S8.SAVED_DIR ++ "/" ++ ("tts_" ++ toString idx ++ "." ++ "mp3"))
            o.synthBytes ∧
      S8.audioGet (S8.tts idx [] sfs b fid o).savedFs
          ("tts_" ++ toString idx ++ "." ++ "mp3")
        = .streamOk "audio/mpeg" ("tts_" ++ toString idx ++ "." ++ "mp3")
            o.synthBytes ∧
      (S8.tts idx [] sfs b fid o).tempFs = []) := by
  have hbase : ("tts_" ++ toString idx).data ≠ [] := by
    simp [String.data_append]
  have hbdot : ∀ x ∈ ("tts_" ++ toString idx).data, x ≠ '.' := by
    intro x hx
    rw [String.data_append] at hx
    rcases List.mem_append.mp hx with h1 | h1
    · have hx4 : x ∈ ['t', 't', 's', '_'] := h1
      fin_cases hx4 <;> decide
    · exact toString_nat_ne_dot idx x h1
  have hiw : listIncludes S8.SUPPORTED_FORMATS "wav" = true := rfl
  have him : listIncludes S8.SUPPORTED_FORMATS "mp3" = true := rfl
  constructor
  · intro hf
    have hw : jsToLower "wav" = "wav" := rfl
    have hsave : (S8.tts idx [] sfs b fid o).savedFs
        = fsWrite sfs
            (S8.SAVED_DIR ++ "/" ++ ("tts_" ++ toString idx ++ "." ++ "wav"))
            o.transcodeBytes := by
      simp only [S8.tts, hv, hc, hf, hs, ht, hw]
      repeat' split
      all_goals simp_all
    have htmp : (S8.tts idx [] sfs b fid o).tempFs = [] := by
      simp only [S8.tts, hv, hc, hf, hs, ht, hw]
      repeat' split
      all_goals simp_all [fsRemove_nil, fsRemove_fsWrite_nil,
        fsRemove_two_fsWrite_nil, fsRemove_fsRemove_fsWrite_nil]
    refine ⟨hsave, ?_, htmp⟩
    have hext : S8.extname ("tts_" ++ toString idx ++ "." ++ "wav")
        = "." ++ "wav" :=
      extname_concat ("tts_" ++ toString idx) "wav" hbase hbdot
        (by intro x hx; simp at hx; rcases hx with h | h | h <;> subst h <;> decide)
    rw [hsave, audioGet_fsWrite, hext,
      (by decide : (if jsToLower ("." ++ "wav") = ".wav" then "audio/wav"
        else "audio/mpeg") = "audio/wav")]
  · intro hf
    have hw : jsToLower "mp3" = "mp3" := rfl
    have hsave : (S8.tts idx [] sfs b fid o).savedFs
        = fsWrite sfs
            (S8.SAVED_DIR ++ "/" ++ ("tts_" ++ toString idx ++ "." ++ "mp3"))
            o.synthBytes := by
      simp only [S8.tts, hv, hc, hf, hs, ht, hw]
      repeat' split
      all_goals simp_all
    have htmp : (S8.tts idx [] sfs b fid o).tempFs = [] := by
      simp only [S8.tts, hv, hc, hf, hs, ht, hw]
      repeat' split
      all_goals simp_all [fsRemove_nil, fsRemove_fsWrite_nil,
        fsRemove_two_fsWrite_nil, fsRemove_fsRemove_fsWrite_nil]
    refine ⟨hsave, ?_, htmp⟩
    have hext : S8.extname ("tts_" ++ toString idx ++ "." ++ "mp3")
        = "." ++ "mp3" :=
      extname_concat ("tts_" ++ toString idx) "mp3" hbase hbdot
        (by intro x hx; simp at hx; rcases hx with h | h | h <;> subst h <;> decide)
    rw [hsave, audioGet_fsWrite, hext,
      (by decide : (if jsToLower ("." ++ "mp3") = ".wav" then "audio/wav"
        else "audio/mpeg") = "audio/mpeg")]

/-- Claim C9 witness. -/
theorem c9_witness :
    S8.audioGet
        (S8.tts 1 [] [] ⟨.str "Hi", some "english", some "wav"⟩ "f"
          ⟨true, [7], "s", true, [8, 9], "t", .ok (some 2)⟩).savedFs
        ("tts_" ++ toString 1 ++ "." ++ "wav")
      = .streamOk "audio/wav" ("tts_" ++ toString 1 ++ "." ++ "wav")
          [8, 9] := by
  exact ((c9_theorem 1 [] ⟨.str "Hi", some "english", some "wav"⟩ "f"
      ⟨true, [7], "s", true, [8, 9], "t", .ok (some 2)⟩ (by decide) "en"
      (by decide) rfl rfl).1 rfl).2.1

/-- Claim C10: the duration-probe helper shared by `s8.js` and the first
part_000 variant is total — its promise resolves with a number on every
probe outcome, never rejecting (in the embedding this is its return
type, `ℚ` rather than an `Except`) — and it resolves with the 5 second
fallback on a probe error, on missing duration metadata, and on a
reported duration of exactly 0 (the falsy float), so a genuinely
zero-length audio file is reported as 5 seconds, not 0; any nonzero
reported duration passes through unchanged. -/
theorem c10_theorem (e : String) (d : ℚ) (hd : d ≠ 0) :
    S8.getAudioDuration (.error e) = 5 ∧
    S8.getAudioDuration (.ok none) = 5 ∧
    S8.getAudioDuration (.ok (some 0)) = 5 ∧
    S8.getAudioDuration (.ok (some d)) = d ∧
    V1.getAudioDuration (.error e) = 5 ∧
    V1.getAudioDuration (.ok none) = 5 ∧
    V1.getAudioDuration (.ok (some 0)) = 5 ∧
    V1.getAudioDuration (.ok (some d)) = d := by
  refine ⟨rfl, rfl, ?_, ?_, rfl, rfl, ?_, ?_⟩ <;>
    simp [S8.getAudioDuration, V1.getAudioDuration, hd]

/-- Claim C10 witness. -/
theorem c10_witness :
    S8.getAudioDuration (.error "boom") = 5 ∧
    S8.getAudioDuration (.ok (some 0)) = 5 ∧
    S8.getAudioDuration (.ok (some 3)) = 3 := by
  have h := c10_theorem "boom" 3 (by norm_num)
  exact ⟨h.1, h.2.2.1, h.2.2.2.1⟩
